import Mathlib

/-!
Verification of the employee change-history and role/salary mutation subsystem
of the hr_system repository (src/employee/models.py, src/employee/managers.py).

Embedding conventions:
* `Decimal(max_digits=10, decimal_places=2)` money values are embedded as
  integer cents (`ℤ`): every stored salary has exactly two decimal places, so
  the value x is represented by the integer 100 * x.  Comparisons and equalities
  in the source translate one-to-one; percentage computations, which divide two
  decimals, are carried out in `ℚ` (the 1/100 scale cancels in the ratio).
* Dates are embedded as day numbers (`ℤ`); only ordering of dates is used.
* The `created_at` timestamp added by `TimeStampedModel` (core/models.py, not
  under src/) is modelled from the spec as an opaque creation timestamp (`ℕ`);
  it is used only as the tiebreaker in the Meta ordering of SalaryHistory.
* A Django model instance compares equal to another iff their primary keys are
  equal; `Role` carries its primary key in the `id` field.
* The per-employee related managers `employee.salary_history` /
  `employee.role_history` are embedded as explicit lists of records, in
  insertion order; the ORM's `ORDER BY` is embedded as `List.insertionSort`
  with the corresponding key.
* `full_clean()` raising `ValidationError` is embedded as a non-empty error
  list: field-level errors (`clean_fields`) are collected first, then the model
  `clean()` method contributes its first failing check (the source `clean()`
  raises at the first violated condition).
-/

/-- django.contrib.auth.models.User: only the `username` attribute is touched
by the embedded code (in the `update_salary` log line). -/
structure User where
  username : String
deriving DecidableEq

/-- employee.models.Role: primary key `id`, `title`, and the id of the
Department it belongs to. -/
structure Role where
  id : ℕ
  title : String
  departmentId : ℕ
deriving DecidableEq

/-- employee.models.Employee: the fields read or written by the mutation
operations and analytics under verification. -/
structure Employee where
  user : User
  role : Role
  seniority_level : String
  current_salary : ℤ
  hire_date : ℤ
deriving DecidableEq

/-- employee.models.SalaryHistory: audit record fields (the employee foreign
key is implicit: a record lives in its employee's history list). -/
structure SalaryHistory where
  old_salary : ℤ
  new_salary : ℤ
  changed_by : Option User
  change_reason : String
  effective_date : ℤ
  created_at : ℕ
deriving DecidableEq

/-- employee.models.RoleHistory: audit record fields. `old_role`/`new_role`
are nullable references; the seniority fields are plain strings as in the
source (`CharField` with choices). -/
structure RoleHistory where
  old_role : Option Role
  new_role : Option Role
  old_seniority : String
  new_seniority : String
  changed_by : Option User
  change_reason : String
  effective_date : ℤ
deriving DecidableEq

/-- Validation errors produced by `full_clean` on the two history models,
one constructor per distinct check in the source. -/
inductive VErr where
  /-- DecimalValidator failure on SalaryHistory.old_salary (max_digits=10). -/
  | invalidDecimalOldSalary
  /-- DecimalValidator failure on SalaryHistory.new_salary (max_digits=10). -/
  | invalidDecimalNewSalary
  /-- Blank check on the changed_by ForeignKey: the field is null=True but
  blank=False, and Field.validate raises the blank error for a None value
  regardless of null=True, so full_clean rejects changed_by=None. -/
  | blankChangedBy
  /-- Blank check on the RoleHistory.old_role ForeignKey (null=True,
  blank=False, same Field.validate behaviour as changed_by). -/
  | blankOldRole
  /-- Blank check on the RoleHistory.new_role ForeignKey (null=True,
  blank=False). -/
  | blankNewRole
  /-- CharField blank check on RoleHistory.old_seniority. -/
  | blankOldSeniority
  /-- CharField blank check on RoleHistory.new_seniority. -/
  | blankNewSeniority
  /-- CharField choices check on RoleHistory.old_seniority. -/
  | invalidChoiceOldSeniority
  /-- CharField choices check on RoleHistory.new_seniority. -/
  | invalidChoiceNewSeniority
  /-- models.py clean: effective date before the employee hire date. -/
  | dateBeforeHire
  /-- models.py SalaryHistory.clean: old and new salary are the same. -/
  | sameSalary
  /-- models.py SalaryHistory.clean: a salary is negative. -/
  | negativeSalary
  /-- models.py RoleHistory.clean: neither role nor seniority changed. -/
  | noChange
deriving DecidableEq

/-- Errors escaping a mutation operation: a ValidationError carrying the
collected check failures, or the AttributeError the log line in
`update_salary` would raise on `changed_by.username` with a None changed_by
(models.py line 120).  The AttributeError is in fact unreachable, because
full_clean already rejects a blank changed_by; the constructor is kept so the
embedding mirrors the source line and the unreachability can be proved. -/
inductive UpdateErr where
  | validation (errs : List VErr)
  | attributeError
deriving DecidableEq

/-- DecimalField(max_digits=10, decimal_places=2) value check on a cents
value: at most 10 digits in total (the 2-decimal-places constraint is built
into the cents representation). -/
def validDecimalField (cents : ℤ) : Prop := |cents| < 10 ^ 10

instance (cents : ℤ) : Decidable (validDecimalField cents) := by
  unfold validDecimalField
  infer_instance

/-- Field-level (clean_fields) errors of a SalaryHistory, in field
declaration order: the two decimal columns run DecimalValidator, and the
changed_by ForeignKey — null=True but blank=False — fails the blank check
when it is None (Django validates blank independently of null).  The
employee reference and effective_date are supplied by construction in every
call path, and change_reason is blank=True. -/
def SalaryHistory.field_errors (h : SalaryHistory) : List VErr :=
  (if validDecimalField h.old_salary then [] else [.invalidDecimalOldSalary]) ++
  (if validDecimalField h.new_salary then [] else [.invalidDecimalNewSalary]) ++
  (match h.changed_by with
    | none => [.blankChangedBy]
    | some _ => [])

/-- SalaryHistory.clean (models.py lines 390-407): date order, then same-value,
then sign; the source raises at the first failed check, so at most one error
is produced. -/
def SalaryHistory.clean_error (h : SalaryHistory) (hire_date : ℤ) : List VErr :=
  if h.effective_date < hire_date then [.dateBeforeHire]
  else if h.old_salary = h.new_salary then [.sameSalary]
  else if h.old_salary < 0 ∨ h.new_salary < 0 then [.negativeSalary]
  else []

/-- full_clean on a SalaryHistory: field errors plus the model clean error. -/
def SalaryHistory.full_clean_errors (h : SalaryHistory) (hire_date : ℤ) : List VErr :=
  h.field_errors ++ h.clean_error hire_date

/-- Outcome of `Employee.update_salary`: the returned record or the escaped
error, together with the post-state of the employee row and of the employee's
salary-history table. -/
structure SalaryUpdateOutcome where
  result : Except UpdateErr SalaryHistory
  employee : Employee
  db : List SalaryHistory

/-- Employee.update_salary (models.py lines 68-123).  The steps mirror the
source: default the effective date to today, build the history record with
`old_salary = self.current_salary`, run `full_clean`, save the record, update
`current_salary`, then emit the log line.  The log line interpolates
`changed_by.username`, which would raise AttributeError on a None changed_by
after both writes; that branch is dead code, because full_clean has already
rejected a blank changed_by, but it is embedded so the source line is
represented.  The two writes are sequential (no enclosing transaction). -/
def Employee.update_salary (e : Employee) (db : List SalaryHistory)
    (new_salary : ℤ) (changed_by : Option User) (reason : String)
    (effective_date : Option ℤ) (today : ℤ) (now : ℕ) : SalaryUpdateOutcome :=
  let d := effective_date.getD today
  let history : SalaryHistory :=
    { old_salary := e.current_salary
      new_salary := new_salary
      changed_by := changed_by
      change_reason := reason
      effective_date := d
      created_at := now }
  match history.full_clean_errors e.hire_date with
  | [] =>
    let db2 := db ++ [history]
    let e2 := { e with current_salary := new_salary }
    match changed_by with
    | none => { result := .error .attributeError, employee := e2, db := db2 }
    | some _ => { result := .ok history, employee := e2, db := db2 }
  | errs => { result := .error (.validation errs), employee := e, db := db }

/-- Python round(x, 2): round half to even at the second decimal place. -/
def pythonRound2 (x : ℚ) : ℚ :=
  let y := x * 100
  let f := y.floor
  let r := y - (f : ℚ)
  if r < 1 / 2 then (f : ℚ) / 100
  else if 1 / 2 < r then ((f + 1 : ℤ) : ℚ) / 100
  else if f % 2 = 0 then (f : ℚ) / 100
  else ((f + 1 : ℤ) : ℚ) / 100

/-- SalaryHistory.change_amount (models.py lines 366-369). -/
def SalaryHistory.change_amount (h : SalaryHistory) : ℤ :=
  h.new_salary - h.old_salary

/-- SalaryHistory.change_percentage (models.py lines 371-378).  The source has
two consecutive zero guards (`== 0` and the falsy test `not self.old_salary`);
for a required Decimal column both are the zero test. -/
def SalaryHistory.change_percentage (h : SalaryHistory) : ℚ :=
  if h.old_salary = 0 then 0
  else if h.old_salary = 0 then 0
  else pythonRound2 (((h.new_salary : ℚ) - (h.old_salary : ℚ)) / (h.old_salary : ℚ) * 100)

/-- SalaryHistory.is_raise (models.py lines 380-383). -/
def SalaryHistory.is_raise (h : SalaryHistory) : Bool :=
  h.old_salary < h.new_salary

/-- SalaryHistory.is_decrease (models.py lines 385-388). -/
def SalaryHistory.is_decrease (h : SalaryHistory) : Bool :=
  h.new_salary < h.old_salary

/-- SalaryHistoryQuerySet.raises_only (managers.py lines 15-17):
filter(new_salary__gt=F(old_salary)). -/
def raises_only (db : List SalaryHistory) : List SalaryHistory :=
  db.filter (fun h => h.old_salary < h.new_salary)

/-- SalaryHistoryQuerySet.decreases_only (managers.py lines 19-21):
filter(new_salary__lt=F(old_salary)). -/
def decreases_only (db : List SalaryHistory) : List SalaryHistory :=
  db.filter (fun h => h.new_salary < h.old_salary)

/-- The change_percentage expression annotated by
SalaryHistoryQuerySet.with_change_stats (managers.py lines 43-50):
(F(new_salary) - F(old_salary)) / F(old_salary) * 100, evaluated by the SQL
backend.  SQL division by zero does not produce a number (NULL on SQLite, an
error on PostgreSQL); both are embedded as `none`. -/
def sql_change_percentage (h : SalaryHistory) : Option ℚ :=
  if h.old_salary = 0 then none
  else some (((h.new_salary : ℚ) - (h.old_salary : ℚ)) / (h.old_salary : ℚ) * 100)

/-- SalaryHistoryQuerySet.with_change_stats (managers.py lines 43-50): each
record annotated with its change_amount and change_percentage expressions. -/
def with_change_stats (db : List SalaryHistory) :
    List (SalaryHistory × ℤ × Option ℚ) :=
  db.map (fun h => (h, h.new_salary - h.old_salary, sql_change_percentage h))

/-- The Meta ordering of SalaryHistory (models.py line 356):
[-effective_date, -created_at], i.e. `a` precedes `b` when `a` has the later
effective date, with the later creation timestamp breaking ties. -/
def metaOrder (a b : SalaryHistory) : Prop :=
  b.effective_date < a.effective_date ∨
    (a.effective_date = b.effective_date ∧ b.created_at ≤ a.created_at)

instance : DecidableRel metaOrder := fun a b => by
  unfold metaOrder
  infer_instance

instance : IsTotal SalaryHistory metaOrder := by
  constructor
  intro a b
  unfold metaOrder
  omega

instance : IsTrans SalaryHistory metaOrder := by
  constructor
  intro a b c
  unfold metaOrder
  omega

/-- Employee.get_salary_history (models.py lines 203-228): the related
queryset in its Meta order, then the optional inclusive date filters
(effective_date__gte / effective_date__lte). -/
def Employee.get_salary_history (_e : Employee) (db : List SalaryHistory)
    (start_date end_date : Option ℤ) : List SalaryHistory :=
  let history := List.insertionSort metaOrder db
  let history := match start_date with
    | some s => history.filter (fun h => s ≤ h.effective_date)
    | none => history
  let history := match end_date with
    | some e2 => history.filter (fun h => h.effective_date ≤ e2)
    | none => history
  history

/-- Employee.total_salary_increases (models.py lines 252-255). -/
def total_salary_increases (db : List SalaryHistory) : ℕ :=
  (db.filter (fun h => h.old_salary < h.new_salary)).length

/-- Ascending effective_date, the order_by key used by
salary_growth_percentage (models.py line 273). -/
def ascEffective (a b : SalaryHistory) : Prop :=
  a.effective_date ≤ b.effective_date

instance : DecidableRel ascEffective := fun a b => by
  unfold ascEffective
  infer_instance

/-- Employee.salary_growth_percentage (models.py lines 265-284): growth from
the `old_salary` of the earliest history record (by effective_date) to the
current salary; 0 when there is no history or that old salary is 0. -/
def Employee.salary_growth_percentage (e : Employee) (db : List SalaryHistory) : ℚ :=
  match (List.insertionSort ascEffective db).head? with
  | none => 0
  | some first_history =>
    let initial_salary := first_history.old_salary
    let current_salary := e.current_salary
    if initial_salary = 0 then 0
    else pythonRound2 (((current_salary : ℚ) - (initial_salary : ℚ)) / (initial_salary : ℚ) * 100)

/-- The seniority rank table of RoleHistory.promotion_or_demotion
(models.py line 497), with the dict .get default of 0 for other strings. -/
def seniority_order (s : String) : ℕ :=
  if s = "JUNIOR" then 1
  else if s = "MID" then 2
  else if s = "SENIOR" then 3
  else 0

/-- RoleHistory.promotion_or_demotion (models.py lines 490-505).  The source
returns the string "promotion" in BOTH compare branches (lines 500-503); this
embedding reproduces that verbatim. -/
def RoleHistory.promotion_or_demotion (h : RoleHistory) : Option String :=
  let old_level := seniority_order h.old_seniority
  let new_level := seniority_order h.new_seniority
  if new_level > old_level then some ("promotion")
  else if old_level > new_level then some ("promotion")
  else none

/-- RoleHistory.is_lateral_move (models.py lines 507-510).  Django compares
the nullable role references by primary key; None equals only None. -/
def optRoleEq : Option Role → Option Role → Bool
  | none, none => true
  | some a, some b => a.id == b.id
  | _, _ => false

/-- RoleHistory.is_lateral_move (models.py lines 507-510). -/
def RoleHistory.is_lateral_move (h : RoleHistory) : Bool :=
  h.old_seniority == h.new_seniority && !(optRoleEq h.old_role h.new_role)

/-- CharField(choices=SENIORITY_LEVELS) validation for a seniority column:
an empty value fails the blank check; a non-empty value outside the choices
list fails the choices check (core/constants.py SENIORITY_LEVELS). -/
def seniorityFieldErrors (s : String) (blankE invalidE : VErr) : List VErr :=
  if s = "" then [blankE]
  else if s = "JUNIOR" ∨ s = "MID" ∨ s = "SENIOR" then []
  else [invalidE]

/-- Field-level (clean_fields) errors of a RoleHistory, in field declaration
order: the old_role/new_role and changed_by ForeignKeys are all null=True but
blank=False, so full_clean rejects a None value for any of them; both
seniority columns are required choice fields.  The employee reference and
effective_date are supplied by construction in every call path, and
change_reason is blank=True. -/
def RoleHistory.field_errors (h : RoleHistory) : List VErr :=
  (match h.old_role with
    | none => [.blankOldRole]
    | some _ => []) ++
  (match h.new_role with
    | none => [.blankNewRole]
    | some _ => []) ++
  seniorityFieldErrors h.old_seniority .blankOldSeniority .invalidChoiceOldSeniority ++
  seniorityFieldErrors h.new_seniority .blankNewSeniority .invalidChoiceNewSeniority ++
  (match h.changed_by with
    | none => [.blankChangedBy]
    | some _ => [])

/-- RoleHistory.clean (models.py lines 519-532): date order first (raised
immediately), then the no-change check on role and seniority. -/
def RoleHistory.clean_error (h : RoleHistory) (hire_date : ℤ) : List VErr :=
  if h.effective_date < hire_date then [.dateBeforeHire]
  else if optRoleEq h.old_role h.new_role = true ∧ h.old_seniority = h.new_seniority then
    [.noChange]
  else []

/-- full_clean on a RoleHistory: field errors plus the model clean error. -/
def RoleHistory.full_clean_errors (h : RoleHistory) (hire_date : ℤ) : List VErr :=
  h.field_errors ++ h.clean_error hire_date

/-- Outcome of `Employee.update_role`: the returned record or the escaped
error, plus the post-state of the employee row and of the employee's
role-history table. -/
structure RoleUpdateOutcome where
  result : Except UpdateErr RoleHistory
  employee : Employee
  db : List RoleHistory

/-- Employee.update_role (models.py lines 125-200).  The constructor call at
lines 170-178 is reproduced exactly as written in the source: it passes
`old_seniority=new_seniority` (the post-change value, not `self.seniority_level`)
and passes NO `new_seniority` at all, so that field keeps the unset CharField
value, the empty string.  On a clean record the employee row is updated to the
requested role and seniority. -/
def Employee.update_role (e : Employee) (db : List RoleHistory)
    (new_role : Option Role) (new_seniority : Option String)
    (changed_by : Option User) (reason : String)
    (effective_date : Option ℤ) (today : ℤ) : RoleUpdateOutcome :=
  let d := effective_date.getD today
  let nr := new_role.getD e.role
  let ns := new_seniority.getD e.seniority_level
  let history : RoleHistory :=
    { old_role := some e.role
      new_role := some nr
      old_seniority := ns
      new_seniority := ""
      changed_by := changed_by
      change_reason := reason
      effective_date := d }
  match history.full_clean_errors e.hire_date with
  | [] =>
    { result := .ok history
      employee := { e with role := nr, seniority_level := ns }
      db := db ++ [history] }
  | errs => { result := .error (.validation errs), employee := e, db := db }

/-- Employee.total_promotions (models.py lines 257-263):
filter(new_seniority__in=[MID, SENIOR], old_seniority__in=[JUNIOR, MID]).count(). -/
def total_promotions (db : List RoleHistory) : ℕ :=
  (db.filter (fun h =>
    decide ((h.new_seniority = "MID" ∨ h.new_seniority = "SENIOR") ∧
      (h.old_seniority = "JUNIOR" ∨ h.old_seniority = "MID")))).length

/-- Whether a record passes the optional inclusive date bounds used by
get_salary_history (effective_date__gte / effective_date__lte). -/
def in_bounds (start_date end_date : Option ℤ) (h : SalaryHistory) : Bool :=
  (match start_date with
    | some s => decide (s ≤ h.effective_date)
    | none => true) &&
  (match end_date with
    | some e2 => decide (h.effective_date ≤ e2)
    | none => true)

/-- Test fixture: an HR actor (employee/tests fixtures use such a user). -/
def hrUser : User := { username := "hr" }

/-- Test fixture: a Developer role in department 1. -/
def devRole : Role := { id := 1, title := "Developer", departmentId := 1 }

/-- Test fixture: a Senior Developer role in department 1. -/
def seniorDevRole : Role := { id := 2, title := "Senior Developer", departmentId := 1 }

/-- Test fixture: a JUNIOR Developer hired on day 0 earning 60000.00. -/
def emp0 : Employee :=
  { user := { username := "worker" }
    role := devRole
    seniority_level := "JUNIOR"
    current_salary := 6000000
    hire_date := 0 }

/-- Test fixture: a persisted RoleHistory recording a seniority decrease,
SENIOR down to JUNIOR. -/
def demotionRecord : RoleHistory :=
  { old_role := some devRole
    new_role := some devRole
    old_seniority := "SENIOR"
    new_seniority := "JUNIOR"
    changed_by := some hrUser
    change_reason := ""
    effective_date := 10 }

/-- Claim C1: promotion_or_demotion should return "demotion" exactly when the
old seniority rank exceeds the new one.  Refuted by the code: for the
SENIOR-to-JUNIOR record (old rank 3 > new rank 1) the source returns
"promotion", because both compare branches return "promotion"
(models.py lines 500-503). -/
theorem promotion_or_demotion_returns_promotion_for_demotion :
    seniority_order demotionRecord.old_seniority > seniority_order demotionRecord.new_seniority ∧
    demotionRecord.promotion_or_demotion = some ("promotion") := by
  constructor
  · decide
  · rfl

/-- Claim C2: update_salary is all-or-nothing — a successful call persists
exactly one new SalaryHistory record and sets current_salary to the new
value, while a failed call leaves zero new records and the employee
unchanged.  Every failure is a full_clean rejection raised before any write
(a clean record forces changed_by to be non-None, because the blank check on
the changed_by ForeignKey is part of full_clean, so the AttributeError the
log line could raise is unreachable). -/
theorem update_salary_all_or_nothing (e : Employee) (db : List SalaryHistory)
    (ns : ℤ) (cb : Option User) (r : String) (ed : Option ℤ)
    (today : ℤ) (now : ℕ) :
    (∀ h, (e.update_salary db ns cb r ed today now).result = .ok h →
      (e.update_salary db ns cb r ed today now).db = db ++ [h] ∧
      (e.update_salary db ns cb r ed today now).employee.current_salary = ns) ∧
    (∀ err, (e.update_salary db ns cb r ed today now).result = .error err →
      (e.update_salary db ns cb r ed today now).db = db ∧
      (e.update_salary db ns cb r ed today now).employee = e) := by
  cases cb with
  | none =>
    cases hE : SalaryHistory.full_clean_errors
        { old_salary := e.current_salary
          new_salary := ns
          changed_by := none
          change_reason := r
          effective_date := ed.getD today
          created_at := now } e.hire_date with
    | nil =>
      exfalso
      revert hE
      simp [SalaryHistory.full_clean_errors, SalaryHistory.field_errors]
    | cons a t =>
      constructor
      · intro h hres
        simp [Employee.update_salary, hE] at hres
      · intro err _
        simp [Employee.update_salary, hE]
  | some u =>
    cases hE : SalaryHistory.full_clean_errors
        { old_salary := e.current_salary
          new_salary := ns
          changed_by := some u
          change_reason := r
          effective_date := ed.getD today
          created_at := now } e.hire_date with
    | nil =>
      constructor
      · intro h hres
        simp only [Employee.update_salary, hE] at hres ⊢
        cases hres
        exact ⟨rfl, trivial⟩
      · intro err hres
        simp [Employee.update_salary, hE] at hres
    | cons a t =>
      constructor
      · intro h hres
        simp [Employee.update_salary, hE] at hres
      · intro err _
        simp [Employee.update_salary, hE]

/-- The SalaryHistory row written by the successful run in Claim C2's
witness. -/
def raiseRunRecord : SalaryHistory :=
  { old_salary := 6000000
    new_salary := 6500000
    changed_by := some hrUser
    change_reason := ""
    effective_date := 10
    created_at := 0 }

/-- Witness for Claim C2: a successful call (60000.00 to 65000.00) persists
exactly the one new record and updates the salary, and a failing call (same
salary) leaves the state untouched. -/
theorem update_salary_all_or_nothing_witness :
    ((emp0.update_salary [] 6500000 (some hrUser) ("") (some 10) 0 0).result =
        .ok raiseRunRecord ∧
      (emp0.update_salary [] 6500000 (some hrUser) ("") (some 10) 0 0).db =
        [] ++ [raiseRunRecord] ∧
      (emp0.update_salary [] 6500000 (some hrUser) ("") (some 10) 0 0).employee.current_salary =
        6500000) ∧
    ((emp0.update_salary [] 6000000 (some hrUser) ("") (some 10) 0 0).result =
        .error (.validation [VErr.sameSalary]) ∧
      (emp0.update_salary [] 6000000 (some hrUser) ("") (some 10) 0 0).db = [] ∧
      (emp0.update_salary [] 6000000 (some hrUser) ("") (some 10) 0 0).employee = emp0) := by
  have t1 := (update_salary_all_or_nothing emp0 [] 6500000 (some hrUser) ("")
    (some 10) 0 0).1 raiseRunRecord rfl
  have t2 := (update_salary_all_or_nothing emp0 [] 6000000 (some hrUser) ("")
    (some 10) 0 0).2 (.validation [VErr.sameSalary]) rfl
  exact ⟨⟨rfl, t1.1, t1.2⟩, ⟨rfl, t2.1, t2.2⟩⟩

/-- Claim C3: a seniority-only update_role call should succeed and return a
history with the pre-change old_seniority and post-change new_seniority.
Refuted by the code: the RoleHistory is constructed with
`old_seniority=new_seniority` and no `new_seniority` value at all
(models.py lines 170-178), so full_clean rejects the blank new_seniority and
the call raises instead of succeeding. -/
theorem update_role_seniority_only_change_rejected :
    emp0.update_role [] none (some ("MID")) (some hrUser) ("") (some 10) 0 =
      { result := .error (.validation [VErr.blankNewSeniority])
        employee := emp0
        db := [] } := by
  rfl

/-- The SalaryHistory row written by the run in Claim C4's theorem. -/
def zeroSalaryRecord : SalaryHistory :=
  { old_salary := 6000000
    new_salary := 0
    changed_by := some hrUser
    change_reason := ""
    effective_date := 10
    created_at := 0 }

/-- Claim C4: update_salary with new_salary = 0 should always be rejected.
Refuted by the code: SalaryHistory.clean only rejects strictly negative
salaries (`old_salary < 0 or new_salary < 0`, models.py line 406), so a zero
new_salary passes every check and the update succeeds, setting
current_salary to 0. -/
theorem update_salary_accepts_zero_salary :
    emp0.update_salary [] 0 (some hrUser) ("") (some 10) 0 0 =
      { result := .ok zeroSalaryRecord
        employee := { emp0 with current_salary := 0 }
        db := [zeroSalaryRecord] } := by
  rfl

/-- Test fixture: a valid persisted RoleHistory whose seniority stays MID
while the role changes. -/
def midToMidRecord : RoleHistory :=
  { old_role := some devRole
    new_role := some seniorDevRole
    old_seniority := "MID"
    new_seniority := "MID"
    changed_by := some hrUser
    change_reason := ""
    effective_date := 10 }

/-- Claim C5: total_promotions should count only records whose old seniority
rank is strictly below the new one.  Refuted by the code: the filter
new_seniority__in=[MID,SENIOR], old_seniority__in=[JUNIOR,MID]
(models.py lines 260-263) also matches a MID-to-MID record, which passes
full_clean (the role changed) yet is no rank increase. -/
theorem total_promotions_counts_mid_to_mid :
    RoleHistory.full_clean_errors midToMidRecord 0 = [] ∧
    ¬ seniority_order midToMidRecord.old_seniority < seniority_order midToMidRecord.new_seniority ∧
    total_promotions [midToMidRecord] = 1 := by
  refine ⟨rfl, by decide, rfl⟩

/-- Claim C6: a no-change update_role call should raise the NoChangeError
signal.  Refuted by the code: because the constructed history never sets
new_seniority (models.py lines 170-178), full_clean fails with the blank-field
error on new_seniority, and the no-change check inside RoleHistory.clean
compares the current seniority with the empty string and never fires.  (No
record is persisted, so that half of the claim does hold.) -/
theorem update_role_no_change_raises_wrong_error :
    emp0.update_role [] (some devRole) (some ("JUNIOR")) (some hrUser) ("") (some 10) 0 =
      { result := .error (.validation [VErr.blankNewSeniority])
        employee := emp0
        db := [] } ∧
    VErr.noChange ∉ [VErr.blankNewSeniority] := by
  refine ⟨rfl, by decide⟩

/-- Test fixture: a SalaryHistory with old_salary = 0 (the initial salary
grant shape exercised by the code's own zero-division test). -/
def zeroOldRecord : SalaryHistory :=
  { old_salary := 0
    new_salary := 6000000
    changed_by := some hrUser
    change_reason := ""
    effective_date := 10
    created_at := 0 }

/-- Claim C8: every percentage computation should guard a zero denominator by
returning 0.  The per-record property and the employee aggregate do
(change_percentage and salary_growth_percentage both return 0 here), but the
with_change_stats queryset annotation computes
(new_salary - old_salary) / old_salary * 100 with no guard
(managers.py lines 43-50): on the old_salary = 0 record the SQL division by
zero yields no number (NULL on SQLite, an error on PostgreSQL), never 0 —
refuting the claim's third conjunct. -/
theorem with_change_stats_divides_by_zero :
    zeroOldRecord.change_percentage = 0 ∧
    emp0.salary_growth_percentage [zeroOldRecord] = 0 ∧
    with_change_stats [zeroOldRecord] = [(zeroOldRecord, 6000000, none)] := by
  refine ⟨rfl, rfl, rfl⟩

/-- Claim C9: get_salary_history returns exactly the records inside the
optional inclusive effective_date bounds, ordered newest first (descending by
effective_date, per the SalaryHistory Meta ordering). -/
theorem get_salary_history_ordered_and_bounded (e : Employee)
    (db : List SalaryHistory) (sd ed : Option ℤ) :
    (e.get_salary_history db sd ed).Sorted
      (fun a b => b.effective_date ≤ a.effective_date) ∧
    ∀ h, h ∈ e.get_salary_history db sd ed ↔ h ∈ db ∧ in_bounds sd ed h = true := by
  have hs : (List.insertionSort metaOrder db).Sorted metaOrder :=
    List.sorted_insertionSort metaOrder db
  have hs2 : (List.insertionSort metaOrder db).Sorted
      (fun a b => b.effective_date ≤ a.effective_date) := by
    refine List.Pairwise.imp ?_ hs
    intro a b hab
    unfold metaOrder at hab
    omega
  constructor
  · unfold Employee.get_salary_history
    rcases sd with _ | s <;> rcases ed with _ | e2
    · exact hs2
    · exact List.Pairwise.filter _ hs2
    · exact List.Pairwise.filter _ hs2
    · exact List.Pairwise.filter _ (List.Pairwise.filter _ hs2)
  · intro h
    unfold Employee.get_salary_history in_bounds
    rcases sd with _ | s <;> rcases ed with _ | e2 <;>
      (simp [List.mem_filter, List.mem_insertionSort]; try tauto)

/-- Test fixture: an early salary change, effective day 5. -/
def histA : SalaryHistory :=
  { old_salary := 6000000
    new_salary := 6200000
    changed_by := some hrUser
    change_reason := ""
    effective_date := 5
    created_at := 1 }

/-- Test fixture: a later salary change, effective day 20. -/
def histB : SalaryHistory :=
  { old_salary := 6200000
    new_salary := 6500000
    changed_by := some hrUser
    change_reason := ""
    effective_date := 20
    created_at := 2 }

/-- Witness for Claim C9: the ordering and bound property instantiated on a
concrete two-record history with bounds [0, 100]. -/
theorem get_salary_history_ordered_and_bounded_witness :
    (emp0.get_salary_history [histA, histB] (some 0) (some 100)).Sorted
      (fun a b => b.effective_date ≤ a.effective_date) ∧
    ∀ h, h ∈ emp0.get_salary_history [histA, histB] (some 0) (some 100) ↔
      h ∈ [histA, histB] ∧ in_bounds (some 0) (some 100) h = true :=
  get_salary_history_ordered_and_bounded emp0 [histA, histB] (some 0) (some 100)

/-- Claim C10: is_raise and is_decrease are never both true; when the two
salaries differ exactly one of them holds; and the queryset filters
raises_only / decreases_only select exactly the records whose is_raise /
is_decrease property is true. -/
theorem raise_decrease_filters_agree (h : SalaryHistory) (db : List SalaryHistory) :
    ¬(h.is_raise = true ∧ h.is_decrease = true) ∧
    (h.old_salary ≠ h.new_salary → (h.is_raise = true ↔ h.is_decrease = false)) ∧
    (h ∈ raises_only db ↔ h ∈ db ∧ h.is_raise = true) ∧
    (h ∈ decreases_only db ↔ h ∈ db ∧ h.is_decrease = true) := by
  refine ⟨?_, ?_, ?_, ?_⟩
  · simp only [SalaryHistory.is_raise, SalaryHistory.is_decrease, decide_eq_true_eq]
    omega
  · intro hne
    simp only [SalaryHistory.is_raise, SalaryHistory.is_decrease,
      decide_eq_true_eq, decide_eq_false_iff_not]
    omega
  · simp [raises_only, List.mem_filter, SalaryHistory.is_raise]
  · simp [decreases_only, List.mem_filter, SalaryHistory.is_decrease]

/-- Witness for Claim C10: the consistency properties instantiated on the
concrete raise record 60000.00 to 65000.00. -/
theorem raise_decrease_filters_agree_witness :
    histA.old_salary ≠ histA.new_salary ∧
    (histA.is_raise = true ↔ histA.is_decrease = false) ∧
    (histA ∈ raises_only [histA] ↔ histA ∈ [histA] ∧ histA.is_raise = true) :=
  ⟨by decide,
    (raise_decrease_filters_agree histA [histA]).2.1 (by decide),
    (raise_decrease_filters_agree histA [histA]).2.2.1⟩
